import Mathlib

/-!
Verification development for the node-cubrid CUBRID database client.

The definitions below are a shallow embedding of the JavaScript source:
`src/CUBRIDConnection.js`, `src/packets/FetchPacket.js`,
`src/packets/OpenDatabasePacket.js`, `src/constants/ErrorMessages.js`
and the unit-test vectors.  Machine integers are modelled as `Int` with
two's-complement wrap at 2^32 where the code uses signed 32-bit reads
and writes; byte buffers are `List Nat` of values in 0..255; fallible
parsing returns `Option`.  Packet writer/reader primitives
(`PacketWriter.js` / `PacketReader.js` are not part of the provided
sources) are modelled from the specification of the frame codec:
big-endian integers, fixed-size byte blocks, null-terminated strings.
-/

namespace NodeCubrid

/-! ## Byte-level codec (frame writer/reader primitives)

Modelled from the spec: `PacketWriter.js` and `PacketReader.js` are not
in the provided sources; the spec defines the codec as big-endian
signed 32-bit integers, single bytes, fixed-length zero-padded blocks
and null-terminated strings. -/

/-- Sizeof constants from `DataTypes.js` (modelled from the spec:
the length field is 4 bytes, the CAS info is 4 bytes, ints are 4 bytes). -/
def DATA_LENGTH_SIZEOF : Nat := 4

/-- CAS info token size in bytes. -/
def CAS_INFO_SIZE : Nat := 4

/-- Size of a wire integer in bytes. -/
def INT_SIZEOF : Nat := 4

/-- Size of a wire byte. -/
def BYTE_SIZEOF : Nat := 1

/-- Write a signed 32-bit big-endian integer (two's complement),
as `PacketWriter._writeInt` does via `Buffer.writeInt32BE`. -/
def writeIntBE (n : Int) : List Nat :=
  let m : Nat := (n % 4294967296).toNat
  [m / 16777216 % 256, m / 65536 % 256, m / 256 % 256, m % 256]

/-- Read a signed 32-bit big-endian integer from four bytes,
as `PacketReader._parseInt` does via `Buffer.readInt32BE`. -/
def readIntBE4 (b0 b1 b2 b3 : Nat) : Int :=
  if b0 * 16777216 + b1 * 65536 + b2 * 256 + b3 < 2147483648
  then ((b0 * 16777216 + b1 * 65536 + b2 * 256 + b3 : Nat) : Int)
  else ((b0 * 16777216 + b1 * 65536 + b2 * 256 + b3 : Nat) : Int) - 4294967296

/-- Write exactly `n` bytes from a buffer, zero-padded on the right
(`PacketWriter._writeBytes`). -/
def writeBytesN (n : Nat) (l : List Nat) : List Nat :=
  l.take n ++ List.replicate (n - l.length) 0

/-- Bytes to string, one character per byte (the codec does no
charset transcoding). -/
def bytesToString (l : List Nat) : String :=
  String.mk (l.map Char.ofNat)

/-- The string held in a null-terminated byte region: the bytes up to
the first zero byte. -/
def stringUpToNull (l : List Nat) : String :=
  bytesToString (l.takeWhile (fun b => b ≠ 0))

/-- Reader primitive: consume a signed 32-bit big-endian integer. -/
def rdInt : List Nat → Option (Int × List Nat)
  | b0 :: b1 :: b2 :: b3 :: rest => some (readIntBE4 b0 b1 b2 b3, rest)
  | _ => none

/-- Reader primitive: consume exactly `n` raw bytes. -/
def rdBytes (n : Nat) (l : List Nat) : Option (List Nat × List Nat) :=
  if n ≤ l.length then some (l.take n, l.drop n) else none

/-- Reader primitive: consume an `n`-byte null-terminated string region
(`PacketReader._parseNullTerminatedString`): the string is the content
up to the first zero byte. -/
def rdNullTerm (n : Nat) (l : List Nat) : Option (String × List Nat) :=
  if n ≤ l.length then some (stringUpToNull (l.take n), l.drop n) else none

/-! ## Error-code table (`constants/ErrorMessages.js`, `CASErrorMsgId`) -/

/-- The CAS error-code table, verbatim from `ErrorMessages.js`. -/
def CASErrorMsgId : List (String × Int) :=
  [("CAS_ER_DBMS", -1000),
   ("CAS_ER_INTERNAL", -1001),
   ("CAS_ER_NO_MORE_MEMORY", -1002),
   ("CAS_ER_COMMUNICATION", -1003),
   ("CAS_ER_ARGS", -1004),
   ("CAS_ER_TRAN_TYPE", -1005),
   ("CAS_ER_SRV_HANDLE", -1006),
   ("CAS_ER_NUM_BIND", -1007),
   ("CAS_ER_UNKNOWN_U_TYPE", -1008),
   ("CAS_ER_DB_VALUE", -1009),
   ("CAS_ER_TYPE_CONVERSION", -1010),
   ("CAS_ER_PARAM_NAME", -1011),
   ("CAS_ER_NO_MORE_DATA", -1012),
   ("CAS_ER_OBJECT", -1013),
   ("CAS_ER_OPEN_FILE", -1014),
   ("CAS_ER_SCHEMA_TYPE", -1015),
   ("CAS_ER_VERSION", -1016),
   ("CAS_ER_FREE_SERVER", -1017),
   ("CAS_ER_NOT_AUTHORIZED_CLIENT", -1018),
   ("CAS_ER_QUERY_CANCEL", -1019),
   ("CAS_ER_NOT_COLLECTION", -1020),
   ("CAS_ER_COLLECTION_DOMAIN", -1021),
   ("CAS_ER_NO_MORE_RESULT_SET", -1022),
   ("CAS_ER_INVALID_CALL_STMT", -1023),
   ("CAS_ER_STMT_POOLING", -1024),
   ("CAS_ER_DBSERVER_DISCONNECTED", -1025),
   ("CAS_ER_MAX_PREPARED_STMT_COUNT_EXCEEDED", -1026),
   ("CAS_ER_HOLDABLE_NOT_ALLOWED", -1027),
   ("CAS_ER_NOT_IMPLEMENTED", -1100),
   ("CAS_ER_IS", -1200)]

/-- Resolve a numeric CAS error code to its human-readable name
(`Helpers._resolveErrorCode`; modelled from the spec: the helper is not
in the provided sources, the spec says it resolves a text from the
error-code table). Unknown codes resolve to the empty string. -/
def resolveErrorCode (code : Int) : String :=
  match CASErrorMsgId.find? (fun p => p.2 == code) with
  | some p => p.1
  | none => ""

/-! ## Packet layer -/

/-- CAS function code for the fetch operation
(`CASConstants.CASFunctionCode.CAS_FC_FETCH`).  Modelled from the spec:
`CASConstants.js` is not in the provided sources, and neither the spec
nor the tests pin the numeric value of the fetch code; no claim depends
on it, only on it being a fixed single byte. -/
def CAS_FC_FETCH : Nat := 8

/-- CAS function code for close-database
(`CASConstants.CASFunctionCode.CAS_FC_CON_CLOSE`).  The spec's
end-to-end close-database request vector fixes its value to 7. -/
def CAS_FC_CON_CLOSE : Nat := 7

/-- One open query handle as tracked by the session
(`_queriesHandleList` entries): server-assigned handle identity, the
current cursor position and the total tuple count. -/
structure QueryHandleRec where
  handle : Int
  currentTupleCount : Int
  totalTupleCount : Int
deriving DecidableEq, Repr

/-- Declared body length of the fetch request
(`FetchPacket.prototype.write`, `bufferLength` minus the length field
and the CAS info). -/
def fetchBufferLength : Nat :=
  DATA_LENGTH_SIZEOF + CAS_INFO_SIZE +
    BYTE_SIZEOF + INT_SIZEOF + INT_SIZEOF +
    INT_SIZEOF + INT_SIZEOF + INT_SIZEOF + INT_SIZEOF +
    INT_SIZEOF + BYTE_SIZEOF + INT_SIZEOF + INT_SIZEOF

/-- The bytes produced by `FetchPacket.prototype.write`: length field,
CAS info echo, fetch function code, then the size-prefixed arguments:
server handle, start position = current cursor + 1, fetch size 100,
case-sensitivity byte 0 and result-set index 0. -/
def fetchWriteBytes (casInfo : List Nat) (queryHandle : QueryHandleRec) : List Nat :=
  writeIntBE ((fetchBufferLength - DATA_LENGTH_SIZEOF - CAS_INFO_SIZE : Nat) : Int) ++
  writeBytesN CAS_INFO_SIZE casInfo ++
  [CAS_FC_FETCH] ++
  writeIntBE (INT_SIZEOF : Int) ++
  writeIntBE queryHandle.handle ++
  writeIntBE (INT_SIZEOF : Int) ++
  writeIntBE (queryHandle.currentTupleCount + 1) ++
  writeIntBE (INT_SIZEOF : Int) ++
  writeIntBE 100 ++
  writeIntBE (BYTE_SIZEOF : Int) ++
  [0] ++
  writeIntBE (INT_SIZEOF : Int) ++
  writeIntBE 0

/-- The fields `FetchPacket.prototype.parse` leaves on the packet
object: the echoed CAS info, the response code, the error tail, and (on
success only) the tuple count of the decoded page.  The row data itself
is delegated to the query handle collaborator and is out of scope. -/
structure FetchPacketState where
  casInfo : List Nat
  responseCode : Int
  errorCode : Int
  errorMsg : String
  tupleCount : Option Int
deriving DecidableEq, Repr

/-- `FetchPacket.prototype.parse`: read the length field, the CAS info
and the response code; on a nonzero response code read the error code
and the null-terminated error message (substituting the table name when
the message is empty); on response code zero read the tuple count. -/
def fetchParse (bytes : List Nat) : Option FetchPacketState :=
  match rdInt bytes with
  | none => none
  | some (responseLength, r1) =>
    match rdBytes CAS_INFO_SIZE r1 with
    | none => none
    | some (cas, r2) =>
      match rdInt r2 with
      | none => none
      | some (rc, r3) =>
        if rc ≠ 0 then
          match rdInt r3 with
          | none => none
          | some (ec, r4) =>
            match rdNullTerm (responseLength - 2 * (INT_SIZEOF : Int)).toNat r4 with
            | none => none
            | some (msg, _) =>
              some { casInfo := cas, responseCode := rc, errorCode := ec,
                     errorMsg := if msg = "" then resolveErrorCode ec else msg,
                     tupleCount := none }
        else
          match rdInt r3 with
          | none => none
          | some (t, _) =>
            some { casInfo := cas, responseCode := rc, errorCode := 0,
                   errorMsg := "", tupleCount := some t }

/-- `CASConstants.getProtocolVersion` applied to broker-info byte 4.
Modelled from the spec: `CASConstants.js` is not in the provided
sources; the spec only says the protocol version is derived from
byte 4, so the derivation is kept opaque and the claims use it
symbolically. -/
def getProtocolVersion (b : Nat) : Nat := b

/-- The immutable broker-info record built by
`OpenDatabasePacket.prototype.parse` (the source freezes it with
`Object.freeze`): byte 0 is the DBMS type, byte 2 the
statement-polling flag, byte 4 (through `getProtocolVersion`) the
protocol version. -/
structure BrokerInfoRec where
  dbType : Nat
  protocolVersion : Nat
  statementPolling : Nat
deriving DecidableEq, Repr

/-- The fields `OpenDatabasePacket.prototype.parse` leaves on the packet
object.  On a negative response code the error tail is read instead of
the broker info and session id. -/
structure OpenDatabasePacketState where
  casInfo : List Nat
  responseCode : Int
  error : Option (Int × String)
  brokerInfo : Option BrokerInfoRec
  sessionId : Option Int
deriving DecidableEq, Repr

/-- The common error tail read by `parser.readError` (modelled from the
spec: `PacketReader.js` is not in the provided sources; the spec says a
negative response code is followed by a 4-byte error code and a
null-terminated error message, resolved from the table when empty). -/
def readErrorTail (responseLength : Int) (l : List Nat) : Option (Int × String) :=
  match rdInt l with
  | none => none
  | some (ec, r1) =>
    match rdNullTerm (responseLength - 2 * (INT_SIZEOF : Int)).toNat r1 with
    | none => none
    | some (msg, _) =>
      some (ec, if msg = "" then resolveErrorCode ec else msg)

/-- Broker info size in bytes (`DATA_TYPES.BROKER_INFO_SIZEOF`). -/
def BROKER_INFO_SIZEOF : Nat := 8

/-- `OpenDatabasePacket.prototype.parse`: read the length field, the
CAS info and the response code; on a negative response code read the
error tail; otherwise read the 8 broker-info bytes (building the frozen
broker-info record) and the session id. -/
def openDatabaseParse (bytes : List Nat) : Option OpenDatabasePacketState :=
  match rdInt bytes with
  | none => none
  | some (responseLength, r1) =>
    match rdBytes CAS_INFO_SIZE r1 with
    | none => none
    | some (cas, r2) =>
      match rdInt r2 with
      | none => none
      | some (rc, r3) =>
        if rc < 0 then
          match readErrorTail responseLength r3 with
          | none => none
          | some e =>
            some { casInfo := cas, responseCode := rc, error := some e,
                   brokerInfo := none, sessionId := none }
        else
          match rdBytes BROKER_INFO_SIZEOF r3 with
          | none => none
          | some (bi, r4) =>
            match rdInt r4 with
            | none => none
            | some (sid, _) =>
              some { casInfo := cas, responseCode := rc, error := none,
                     brokerInfo := some { dbType := bi.getD 0 0,
                                          protocolVersion := getProtocolVersion (bi.getD 4 0),
                                          statementPolling := bi.getD 2 0 },
                     sessionId := some sid }

/-! ## Frame measurement and test vectors -/

/-- The value of a frame's 4-byte big-endian length field. -/
def frameLengthField (f : List Nat) : Nat :=
  f.getD 0 0 * 16777216 + f.getD 1 0 * 65536 + f.getD 2 0 * 256 + f.getD 3 0

/-- The number of body bytes of a frame: everything after the 4-byte
length field and the 4-byte CAS info. -/
def frameBodyLength (f : List Nat) : Nat :=
  f.length - (DATA_LENGTH_SIZEOF + CAS_INFO_SIZE)

/-- Close-database request frame from the unit test
`test_CloseDatabasePacket.js` and the spec's first end-to-end vector:
length 1, CAS info, close-database function code. -/
def closeDatabaseRequestVector : List Nat :=
  [0, 0, 0, 1, 0, 255, 255, 255, CAS_FC_CON_CLOSE]

/-- Close-database response frame fed to the parser by
`test_CloseDatabasePacket.js` (line 23). -/
def closeDatabaseResponseVector : List Nat :=
  [0, 0, 0, 0, 0, 255, 255, 255, 0, 0, 0, 0]

/-- Open-database response frame fed to the parser by
`test/packets.OpenDatabasePacket.js` (lines 25-29), also the spec's
second end-to-end vector. -/
def openDatabaseResponseVector : List Nat :=
  [0, 0, 0, 15,
   0, 255, 255, 255,
   0, 0, 0, 0,
   5, 5, 5, 5, 5, 5, 5, 5,
   0, 0, 0, 3]

/-! ## Session / connection core (`CUBRIDConnection.js`)

The session's observable behaviour is modelled per operation: each
model returns the sequence of lifecycle-flag states it moves through
(one entry per assignment to the three booleans), the packets it writes
to the socket, the error events it emits, and the error argument its
completion callback receives.  Server acknowledgements are given to the
models as the already-decoded error code of the response (`0` =
success), since every data-plane handler branches only on
`errorCode !== 0`. -/

/-- Error kinds surfaced by the connection
(`ErrorMessages` constants and decoded server errors). -/
inductive ErrKind where
  | validation
  | queryAlreadyPending
  | connectionAlreadyPending
  | noActiveQuery
  | transport
  | server (code : Int)
deriving DecidableEq, Repr

/-- One request packet written to the socket. -/
inductive Wire where
  | executeQueryReq
  | closeQueryReq (handle : Int)
  | commitReq
  | rollbackReq
  | setAutoCommitReq (mode : Bool)
  | closeDbReq
deriving DecidableEq, Repr

/-- The three lifecycle booleans of a session
(`connectionOpened`, `connectionPending`, `queryPending`). -/
structure SessionFlags where
  connectionOpened : Bool
  connectionPending : Bool
  queryPending : Bool
deriving DecidableEq, Repr

/-- Result of a `connect()` call: the flag states it moves through,
its final flag state, and the error (if any) its completion reports. -/
structure ConnectCall where
  trace : List SessionFlags
  final : SessionFlags
  err : Option ErrKind
deriving DecidableEq, Repr

/-- `CUBRIDConnection.prototype.connect`: reject immediately when a
connect is already pending; otherwise set `connectionPending`, run the
rendezvous and login steps (collapsed into `connectOk`), and in the
completion callback reset `queryPending`, reset `connectionPending`
and set `connectionOpened` according to the outcome (lines 209-248). -/
def connectModel (s : SessionFlags) (connectOk : Bool) : ConnectCall :=
  if s.connectionPending then
    { trace := [s], final := s, err := some .connectionAlreadyPending }
  else
    let s1 := { s with connectionPending := true }
    let s2 := { s1 with queryPending := false }
    let s3 := { s2 with connectionPending := false }
    let s4 := { s3 with connectionOpened := connectOk }
    { trace := [s, s1, s2, s3, s4], final := s4,
      err := if connectOk then none else some .transport }

/-- Outcome of a `query()` call. -/
inductive QueryOutcome where
  | rejectedPending
  | rejectedValidation
  | connectFailed
  | cacheHit
  | wireError
  | wireSuccess
deriving DecidableEq, Repr

/-- Result of a `query()` call. -/
structure QueryCall where
  trace : List SessionFlags
  final : SessionFlags
  wire : List Wire
  errorEvents : List ErrKind
  callbackErr : Option ErrKind
  outcome : QueryOutcome
deriving DecidableEq, Repr

/-- Second `ActionQueue` step of `query()` (lines 475-543), entered
with the connection open: serve from the cache when enabled and hit
(resetting `queryPending`, lines 477-487), otherwise write the execute
packet; a nonzero response error code resets `queryPending` (line 520,
and again in the final callback, line 535), while on success the flag
is left as it stands. -/
def queryStep2 (tr0 : List SessionFlags) (s2 : SessionFlags)
    (cacheEnabled cacheHit : Bool) (ackErrorCode : Int) : QueryCall :=
  if cacheEnabled ∧ cacheHit then
    let sf := { s2 with queryPending := false }
    { trace := tr0 ++ [sf], final := sf, wire := [],
      errorEvents := [], callbackErr := none, outcome := .cacheHit }
  else
    if ackErrorCode ≠ 0 then
      let sf := { s2 with queryPending := false }
      { trace := tr0 ++ [sf, sf], final := sf, wire := [.executeQueryReq],
        errorEvents := [.server ackErrorCode],
        callbackErr := some (.server ackErrorCode), outcome := .wireError }
    else
      { trace := tr0, final := s2, wire := [.executeQueryReq],
        errorEvents := [], callbackErr := none, outcome := .wireSuccess }

/-- `CUBRIDConnection.prototype.query` (lines 439-543): reject when a
query is already pending (error to both the error event and the
callback); reject invalid SQL (validation error to the error event but
the still-null `err` to the callback); otherwise set `queryPending`
and run the two queue steps, connecting first when the connection is
not open.  A connect failure reaches the final callback as an error
and resets `queryPending` (line 535). -/
def queryModel (s : SessionFlags) (sqlValid : Bool)
    (cacheEnabled cacheHit : Bool) (connectOk : Bool)
    (ackErrorCode : Int) : QueryCall :=
  if s.queryPending then
    { trace := [s], final := s, wire := [],
      errorEvents := [.queryAlreadyPending],
      callbackErr := some .queryAlreadyPending, outcome := .rejectedPending }
  else if ¬ sqlValid then
    { trace := [s], final := s, wire := [],
      errorEvents := [.validation],
      callbackErr := none, outcome := .rejectedValidation }
  else
    let s1 := { s with queryPending := true }
    if s1.connectionOpened = false then
      let c := connectModel s1 connectOk
      match c.err with
      | some e =>
        let sf := { c.final with queryPending := false }
        { trace := [s, s1] ++ c.trace ++ [sf], final := sf, wire := [],
          errorEvents := [e, e], callbackErr := some e, outcome := .connectFailed }
      | none =>
        queryStep2 ([s, s1] ++ c.trace) c.final cacheEnabled cacheHit ackErrorCode
    else
      queryStep2 [s, s1] s1 cacheEnabled cacheHit ackErrorCode

/-- Result of a `closeQuery()` call. -/
structure CloseQueryCall where
  flags : SessionFlags
  wire : List Wire
  errorEvents : List ErrKind
  callbackErr : Option ErrKind
deriving DecidableEq, Repr

/-- `CUBRIDConnection.prototype.closeQuery` (lines 632-691): reject an
invalid handle argument (validation error to the error event but the
still-null `err` to the callback, lines 638-644); otherwise reset
`queryPending`, write the close-query packet and complete on the
decoded acknowledgement. -/
def closeQueryModel (s : SessionFlags) (handleValid : Bool)
    (queryHandle : Int) (ackErrorCode : Int) : CloseQueryCall :=
  if ¬ handleValid then
    { flags := s, wire := [], errorEvents := [.validation], callbackErr := none }
  else
    { flags := { s with queryPending := false },
      wire := [.closeQueryReq queryHandle],
      errorEvents := if ackErrorCode ≠ 0 then [.server ackErrorCode] else [],
      callbackErr := if ackErrorCode ≠ 0 then some (.server ackErrorCode) else none }

/-- Flag effect of `CUBRIDConnection.prototype.close` (lines 703-706):
all three lifecycle booleans are reset at entry. -/
def closeResetFlags (_s : SessionFlags) : SessionFlags :=
  { connectionOpened := false, connectionPending := false, queryPending := false }

/-- When a transaction operation completes: immediately (auto-commit
no-op path) or only after the acknowledgement frame is decoded. -/
inductive CompletionPhase where
  | immediate
  | afterAck
deriving DecidableEq, Repr

/-- Result of a `commit()` or `rollback()` call. -/
structure TxnCall where
  wire : List Wire
  callbackErr : Option ErrKind
  phase : CompletionPhase
deriving DecidableEq, Repr

/-- `CUBRIDConnection.prototype.commit` (lines 859-904): only when the
local auto-commit mode is strictly `false` is the commit packet
written, with completion after the acknowledgement is decoded;
otherwise the callback fires immediately with a null error and nothing
is written. -/
def commitModel (autoCommitMode : Option Bool) (ackErrorCode : Int) : TxnCall :=
  if autoCommitMode = some false then
    { wire := [.commitReq],
      callbackErr := if ackErrorCode ≠ 0 then some (.server ackErrorCode) else none,
      phase := .afterAck }
  else
    { wire := [], callbackErr := none, phase := .immediate }

/-- `CUBRIDConnection.prototype.rollback` (lines 808-853): same shape
as `commit`, writing the rollback packet. -/
def rollbackModel (autoCommitMode : Option Bool) (ackErrorCode : Int) : TxnCall :=
  if autoCommitMode = some false then
    { wire := [.rollbackReq],
      callbackErr := if ackErrorCode ≠ 0 then some (.server ackErrorCode) else none,
      phase := .afterAck }
  else
    { wire := [], callbackErr := none, phase := .immediate }

/-- Result of an auto-commit toggle. -/
structure ToggleCall where
  wire : List Wire
  mode : Option Bool
  callbackErr : Option ErrKind
deriving DecidableEq, Repr

/-- `_toggleAutoCommitMode` (lines 913-966).  The boolean-input
validation always passes for a boolean argument.  When the local mode
already equals the requested mode AND a callback function was supplied,
the callback fires and the function returns without writing (the
`return` sits inside the callback guard, so with no callback the equal
case falls through and the packet is written anyway).  Otherwise the
set-auto-commit packet is written and the local mode is updated only
when the decoded acknowledgement reports success (lines 953-959). -/
def toggleAutoCommitMode (current : Option Bool) (m : Bool)
    (hasCallback : Bool) (ackErrorCode : Int) : ToggleCall :=
  if current = some m ∧ hasCallback then
    { wire := [], mode := current, callbackErr := none }
  else
    { wire := [.setAutoCommitReq m],
      mode := if ackErrorCode = 0 then some m else current,
      callbackErr := if ackErrorCode = 0 then none else some (.server ackErrorCode) }

/-- `CUBRIDConnection.prototype.setAutoCommitMode` (lines 794-802):
delegates to `_toggleAutoCommitMode`, always passing a wrapper
function as the callback. -/
def setAutoCommitMode (current : Option Bool) (m : Bool)
    (ackErrorCode : Int) : ToggleCall :=
  toggleAutoCommitMode current m true ackErrorCode

/-- Outcome of a `fetch()` call. -/
inductive FetchOutcome where
  | noActiveQuery
  | fetchDone
  | sent
deriving DecidableEq, Repr

/-- Result of a `fetch()` call: the byte frames written to the socket,
the error events emitted and the callback error before any response
arrives. -/
structure FetchCall where
  wire : List (List Nat)
  errorEvents : List ErrKind
  callbackErr : Option ErrKind
  outcome : FetchOutcome
deriving DecidableEq, Repr

/-- `CUBRIDConnection.prototype.fetch` (lines 563-625): look up the
first handle with the requested identity; when none exists fail with
the no-active-query error and write nothing; when its cursor equals
its total emit the fetch-done event with a null result and write
nothing; otherwise write exactly one fetch packet built by
`FetchPacket.prototype.write` from the found handle. -/
def fetchModel (casInfo : List Nat) (handles : List QueryHandleRec)
    (queryHandle : Int) : FetchCall :=
  match handles.find? (fun q => q.handle == queryHandle) with
  | none =>
    { wire := [], errorEvents := [.noActiveQuery],
      callbackErr := some .noActiveQuery, outcome := .noActiveQuery }
  | some q =>
    if q.currentTupleCount == q.totalTupleCount then
      { wire := [], errorEvents := [], callbackErr := none, outcome := .fetchDone }
    else
      { wire := [fetchWriteBytes casInfo q], errorEvents := [],
        callbackErr := none, outcome := .sent }

/-! ## Helper lemmas -/

/-- Reading back a written 32-bit big-endian integer recovers it when
it fits in a signed 32-bit word. -/
theorem rdInt_writeIntBE (n : Int) (rest : List Nat)
    (h1 : -2147483648 ≤ n) (h2 : n < 2147483648) :
    rdInt (writeIntBE n ++ rest) = some (n, rest) := by
  have hmod0 : 0 ≤ n % 4294967296 := Int.emod_nonneg n (by norm_num)
  have hmod1 : n % 4294967296 < 4294967296 := Int.emod_lt_of_pos n (by norm_num)
  have hcast : (((n % 4294967296).toNat : Int)) = n % 4294967296 :=
    Int.toNat_of_nonneg hmod0
  simp only [writeIntBE, List.cons_append, List.nil_append, rdInt,
    Option.some.injEq, Prod.mk.injEq]
  refine ⟨?_, trivial⟩
  set m : Nat := (n % 4294967296).toNat with hm
  have hmlt : m < 4294967296 := by omega
  have hv : m / 16777216 % 256 * 16777216 + m / 65536 % 256 * 65536 +
      m / 256 % 256 * 256 + m % 256 = m := by omega
  rw [readIntBE4, hv]
  split
  · omega
  · omega

/-! ## Claim theorems -/

/-- C5: Parsing the open-database response bytes
`00 00 00 0F | 00 FF FF FF | 00 00 00 00 | 05 x8 | 00 00 00 03` yields
casInfo `[0,255,255,255]`, responseCode `0`, a broker-info record with
dbType 5 (byte 0), statementPolling taken from byte 2 and
protocolVersion derived from byte 4, and sessionId 3.  (The source
freezes the broker-info record with `Object.freeze`; it is a pure
record here.) -/
theorem c5_open_database_response_decoded :
    openDatabaseParse openDatabaseResponseVector =
      some { casInfo := [0, 255, 255, 255], responseCode := 0, error := none,
             brokerInfo := some { dbType := 5,
                                  protocolVersion := getProtocolVersion 5,
                                  statementPolling := 5 },
             sessionId := some 3 } := by
  rfl

/-- C4 counterexample: the decoded response vectors of the repository's
own tests violate the length rule.  The close-database response vector
declares length 0 but carries 4 body bytes after the CAS info, and the
open-database response vector declares length 15 but carries 16 body
bytes. -/
theorem c4_counterexample :
    frameLengthField closeDatabaseResponseVector ≠
      frameBodyLength closeDatabaseResponseVector
    ∧ frameLengthField openDatabaseResponseVector ≠
      frameBodyLength openDatabaseResponseVector := by
  decide

/-- C4 (amended): for frames produced by the request encoders the
4-byte big-endian length field equals the number of body bytes after
the CAS info — this holds for every fetch request frame and for the
close-database request vector — but not for the decoded response
vectors of the tests, whose length fields undercount the body by 4. -/
theorem c4_request_frame_length_counts_body (c0 c1 c2 c3 : Nat)
    (q : QueryHandleRec) :
    frameLengthField (fetchWriteBytes [c0, c1, c2, c3] q)
      = frameBodyLength (fetchWriteBytes [c0, c1, c2, c3] q)
    ∧ frameLengthField closeDatabaseRequestVector
      = frameBodyLength closeDatabaseRequestVector := by
  constructor
  · simp [frameLengthField, frameBodyLength, fetchWriteBytes, fetchBufferLength,
      writeIntBE, writeBytesN, DATA_LENGTH_SIZEOF, CAS_INFO_SIZE, INT_SIZEOF,
      BYTE_SIZEOF, CAS_FC_FETCH]
  · decide

/-- C2: with auto-commit on, `commit()` and `rollback()` write nothing
to the socket and complete immediately with a null error; with
auto-commit off, the commit/rollback packet is written and completion
happens only after the acknowledgement frame is decoded. -/
theorem c2_commit_rollback_autocommit_noop (ack : Int) :
    (commitModel (some true) ack).wire = []
    ∧ (commitModel (some true) ack).callbackErr = none
    ∧ (commitModel (some true) ack).phase = .immediate
    ∧ (rollbackModel (some true) ack).wire = []
    ∧ (rollbackModel (some true) ack).callbackErr = none
    ∧ (rollbackModel (some true) ack).phase = .immediate
    ∧ (commitModel (some false) ack).wire = [.commitReq]
    ∧ (commitModel (some false) ack).phase = .afterAck
    ∧ (rollbackModel (some false) ack).wire = [.rollbackReq]
    ∧ (rollbackModel (some false) ack).phase = .afterAck := by
  refine ⟨?_, ?_, ?_, ?_, ?_, ?_, ?_, ?_, ?_, ?_⟩ <;>
    simp [commitModel, rollbackModel]

/-- C3: `fetch(h)` with no matching handle fails with the
no-active-query error and writes nothing; with the found handle
exhausted (`current = total`) it completes with the fetch-done marker
and writes nothing; otherwise it writes exactly one fetch packet whose
start-position field (bytes 21-24) is `current + 1` and whose
fetch-size field (bytes 29-32) is 100. -/
theorem c3_fetch_dispatch (c0 c1 c2 c3 : Nat)
    (handles : List QueryHandleRec) (h : Int) :
    ((∀ q ∈ handles, q.handle ≠ h) →
      fetchModel [c0, c1, c2, c3] handles h =
        { wire := [], errorEvents := [.noActiveQuery],
          callbackErr := some .noActiveQuery, outcome := .noActiveQuery })
    ∧ (∀ q, handles.find? (fun r => r.handle == h) = some q →
        q.currentTupleCount = q.totalTupleCount →
        fetchModel [c0, c1, c2, c3] handles h =
          { wire := [], errorEvents := [], callbackErr := none,
            outcome := .fetchDone })
    ∧ (∀ q, handles.find? (fun r => r.handle == h) = some q →
        q.currentTupleCount ≠ q.totalTupleCount →
        (fetchModel [c0, c1, c2, c3] handles h).wire
            = [fetchWriteBytes [c0, c1, c2, c3] q]
        ∧ (fetchModel [c0, c1, c2, c3] handles h).outcome = .sent
        ∧ ((fetchWriteBytes [c0, c1, c2, c3] q).drop 21).take 4
            = writeIntBE (q.currentTupleCount + 1)
        ∧ ((fetchWriteBytes [c0, c1, c2, c3] q).drop 29).take 4
            = writeIntBE 100) := by
  refine ⟨?_, ?_, ?_⟩
  · intro hno
    have hfind : handles.find? (fun r => r.handle == h) = none := by
      rw [List.find?_eq_none]
      intro q hq
      simp [hno q hq]
    simp [fetchModel, hfind]
  · intro q hq heq
    simp [fetchModel, hq, heq]
  · intro q hq hne
    refine ⟨?_, ?_, ?_, ?_⟩
    · simp [fetchModel, hq, hne]
    · simp [fetchModel, hq, hne]
    · simp [fetchWriteBytes, fetchBufferLength, writeIntBE, writeBytesN,
        DATA_LENGTH_SIZEOF, CAS_INFO_SIZE, INT_SIZEOF, BYTE_SIZEOF, CAS_FC_FETCH]
    · simp [fetchWriteBytes, fetchBufferLength, writeIntBE, writeBytesN,
        DATA_LENGTH_SIZEOF, CAS_INFO_SIZE, INT_SIZEOF, BYTE_SIZEOF, CAS_FC_FETCH]

/-- C3 witness: the three fetch branches evaluated at concrete handle
lists. -/
theorem c3_fetch_dispatch_witness :
    fetchModel [0, 255, 255, 255] [⟨5, 100, 250⟩] 7 =
      { wire := [], errorEvents := [.noActiveQuery],
        callbackErr := some .noActiveQuery, outcome := .noActiveQuery }
    ∧ fetchModel [0, 255, 255, 255] [⟨5, 250, 250⟩] 5 =
      { wire := [], errorEvents := [], callbackErr := none,
        outcome := .fetchDone }
    ∧ (fetchModel [0, 255, 255, 255] [⟨5, 100, 250⟩] 5).wire
        = [fetchWriteBytes [0, 255, 255, 255] ⟨5, 100, 250⟩]
    ∧ ((fetchWriteBytes [0, 255, 255, 255] ⟨5, 100, 250⟩).drop 21).take 4
        = writeIntBE (100 + 1)
    ∧ ((fetchWriteBytes [0, 255, 255, 255] ⟨5, 100, 250⟩).drop 29).take 4
        = writeIntBE 100 :=
  ⟨(c3_fetch_dispatch 0 255 255 255 [⟨5, 100, 250⟩] 7).1 (by decide),
   (c3_fetch_dispatch 0 255 255 255 [⟨5, 250, 250⟩] 5).2.1 ⟨5, 250, 250⟩ rfl rfl,
   ((c3_fetch_dispatch 0 255 255 255 [⟨5, 100, 250⟩] 5).2.2 ⟨5, 100, 250⟩ rfl
      (by decide)).1,
   ((c3_fetch_dispatch 0 255 255 255 [⟨5, 100, 250⟩] 5).2.2 ⟨5, 100, 250⟩ rfl
      (by decide)).2.2.1,
   ((c3_fetch_dispatch 0 255 255 255 [⟨5, 100, 250⟩] 5).2.2 ⟨5, 100, 250⟩ rfl
      (by decide)).2.2.2⟩

/-- C6: a response body whose response code is negative is decoded as a
4-byte error code followed by a null-terminated error message, with the
table name substituted when the message is empty; per-packet fields
(the tuple count) are exposed only when the response code is
non-negative; and error code -1012 resolves to
"CAS_ER_NO_MORE_DATA". -/
theorem c6_error_tail_decoding (a b c d : Nat) (rc ec : Int) (msg : List Nat)
    (hrc : rc < 0) (hrcLo : -2147483648 ≤ rc)
    (hecLo : -2147483648 ≤ ec) (hecHi : ec < 2147483648)
    (hmsg : msg.length < 2147483640) :
    fetchParse (writeIntBE (8 + (msg.length : Int)) ++
        ([a, b, c, d] ++ (writeIntBE rc ++ (writeIntBE ec ++ msg)))) =
      some { casInfo := [a, b, c, d], responseCode := rc, errorCode := ec,
             errorMsg := if stringUpToNull msg = ""
                         then resolveErrorCode ec else stringUpToNull msg,
             tupleCount := none }
    ∧ (∀ bytes st, fetchParse bytes = some st →
        st.tupleCount ≠ none → 0 ≤ st.responseCode)
    ∧ resolveErrorCode (-1012) = "CAS_ER_NO_MORE_DATA" := by
  refine ⟨?_, ?_, ?_⟩
  · have e1 : rdInt (writeIntBE (8 + (msg.length : Int)) ++
        ([a, b, c, d] ++ (writeIntBE rc ++ (writeIntBE ec ++ msg)))) =
        some (8 + (msg.length : Int),
              [a, b, c, d] ++ (writeIntBE rc ++ (writeIntBE ec ++ msg))) :=
      rdInt_writeIntBE _ _ (by omega) (by omega)
    have e2 : rdBytes CAS_INFO_SIZE
        ([a, b, c, d] ++ (writeIntBE rc ++ (writeIntBE ec ++ msg))) =
        some ([a, b, c, d], writeIntBE rc ++ (writeIntBE ec ++ msg)) := by
      simp [rdBytes, CAS_INFO_SIZE]
    have e3 : rdInt (writeIntBE rc ++ (writeIntBE ec ++ msg)) =
        some (rc, writeIntBE ec ++ msg) :=
      rdInt_writeIntBE _ _ hrcLo (by omega)
    have e4 : rdInt (writeIntBE ec ++ msg) = some (ec, msg) :=
      rdInt_writeIntBE _ _ hecLo hecHi
    have hlen : ((8 + (msg.length : Int)) - 2 * (INT_SIZEOF : Int)).toNat
        = msg.length := by
      simp only [INT_SIZEOF]
      omega
    have e5 : rdNullTerm ((8 + (msg.length : Int)) -
        2 * (INT_SIZEOF : Int)).toNat msg = some (stringUpToNull msg, []) := by
      rw [hlen]
      simp [rdNullTerm]
    have hne : rc ≠ 0 := by omega
    simp only [fetchParse, e1, e2, e3, e4, e5, if_pos hne]
  · intro bytes st hp ht
    simp only [fetchParse] at hp
    repeat' split at hp
    all_goals first
      | (injection hp with hx
         subst hx
         simp_all)
      | injection hp
  · rfl

/-- C6 witness: the spec's error-propagation vector, a response with
code -1 carrying error code -1012 and an empty message, decodes to the
resolved name "CAS_ER_NO_MORE_DATA". -/
theorem c6_error_tail_decoding_witness :
    fetchParse (writeIntBE (8 + ((([0] : List Nat).length : Nat) : Int)) ++
        ([0, 255, 255, 255] ++ (writeIntBE (-1) ++ (writeIntBE (-1012) ++ [0])))) =
      some { casInfo := [0, 255, 255, 255], responseCode := -1,
             errorCode := -1012,
             errorMsg := if stringUpToNull [0] = ""
                         then resolveErrorCode (-1012) else stringUpToNull [0],
             tupleCount := none }
    ∧ resolveErrorCode (-1012) = "CAS_ER_NO_MORE_DATA" :=
  ⟨(c6_error_tail_decoding 0 255 255 255 (-1) (-1012) [0]
      (by norm_num) (by norm_num) (by norm_num) (by norm_num) (by norm_num)).1,
   (c6_error_tail_decoding 0 255 255 255 (-1) (-1012) [0]
      (by norm_num) (by norm_num) (by norm_num) (by norm_num) (by norm_num)).2.2⟩

/-- C7 counterexample: two successive `setAutoCommitMode(true)` calls
from local mode `false` emit TWO wire packets when the first call's
acknowledgement reports failure (error code -1), because the local
mode is then not updated and the second call sends again. -/
theorem c7_counterexample :
    ((setAutoCommitMode (some false) true (-1)).wire ++
      (setAutoCommitMode
        (setAutoCommitMode (some false) true (-1)).mode true (-1)).wire).length
      = 2 := by
  decide

/-- C7 (amended): `setAutoCommitMode(m)` with the local mode already
`m` sends no packet; when a packet is sent the local mode is updated
only if the response reports success; and two successive
`setAutoCommitMode(m)` calls emit at most one wire packet provided the
first call's response reports success (on failure the second call
resends, as the counterexample shows). -/
theorem c7_set_autocommit_idempotent (current : Option Bool) (m : Bool)
    (ack1 ack2 : Int) :
    (current = some m → (setAutoCommitMode current m ack1).wire = [])
    ∧ (ack1 ≠ 0 → (setAutoCommitMode current m ack1).mode = current)
    ∧ (ack1 = 0 →
        ((setAutoCommitMode current m ack1).wire ++
          (setAutoCommitMode
            (setAutoCommitMode current m ack1).mode m ack2).wire).length ≤ 1) := by
  refine ⟨?_, ?_, ?_⟩
  · intro hcur
    simp [setAutoCommitMode, toggleAutoCommitMode, hcur]
  · intro hack
    by_cases hcur : current = some m
    · simp [setAutoCommitMode, toggleAutoCommitMode, hcur]
    · simp [setAutoCommitMode, toggleAutoCommitMode, hcur, hack]
  · intro hack
    by_cases hcur : current = some m
    · simp [setAutoCommitMode, toggleAutoCommitMode, hcur]
    · simp [setAutoCommitMode, toggleAutoCommitMode, hcur, hack]

/-- C7 witness: with the mode already `true` no packet is sent, and
from mode `false` with a successful first acknowledgement two
successive calls emit one packet in total. -/
theorem c7_set_autocommit_idempotent_witness :
    (setAutoCommitMode (some true) true 0).wire = []
    ∧ ((setAutoCommitMode (some false) true 0).wire ++
        (setAutoCommitMode
          (setAutoCommitMode (some false) true 0).mode true 0).wire).length ≤ 1 :=
  ⟨(c7_set_autocommit_idempotent (some true) true 0 0).1 rfl,
   (c7_set_autocommit_idempotent (some false) true 0 0).2.2 rfl⟩

set_option maxHeartbeats 4000000 in
/-- C8 counterexample: feeding the fetch encoder's output to the fetch
decoder does not recover the encoded request fields (handle 42, start
position 101, fetch size 100): the decoder is a response decoder, it
reads the function-code byte into the response code (134217728), takes
the error path and exposes no per-packet fields. -/
theorem c8_counterexample :
    fetchParse (fetchWriteBytes [0, 255, 255, 255] ⟨42, 100, 250⟩) =
      some { casInfo := [0, 255, 255, 255], responseCode := 134217728,
             errorCode := 67108864, errorMsg := "*", tupleCount := none }
    ∧ (134217728 : Int) ≠ 0 := by
  constructor
  · decide
  · decide

set_option maxHeartbeats 4000000 in
/-- C8 (amended): for every packet type the encoder produces the
request frame and the decoder consumes the response frame, so
decode-after-encode is not an identity: the fetch decoder applied to
any encoded fetch request always takes the error path (nonzero
response code read from the function-code byte, no tuple field
exposed), for every CAS info and every query handle. -/
theorem c8_encode_decode_mismatch (c0 c1 c2 c3 : Nat) (q : QueryHandleRec) :
    ∃ e m, fetchParse (fetchWriteBytes [c0, c1, c2, c3] q) =
      some { casInfo := [c0, c1, c2, c3], responseCode := 134217728,
             errorCode := e, errorMsg := m, tupleCount := none } :=
  ⟨_, _, rfl⟩

/-- C1 counterexample: a `query()` on a fresh closed session (valid
SQL, no cache, successful connect and execute) passes through a state
in which `connectionPending` and `queryPending` are BOTH true: the
query sets `queryPending` before its first queue step calls
`connect()`, which sets `connectionPending`. -/
theorem c1_counterexample :
    ∃ st ∈ (queryModel ⟨false, false, false⟩ true false false true 0).trace,
      st.connectionPending = true ∧ st.queryPending = true :=
  ⟨⟨false, true, true⟩, by decide, rfl, rfl⟩

/-- C1 (amended): the mutual exclusion of `connectionPending` and
`queryPending` holds throughout a `query()` call only when the
connection is already open and no connect is pending at the time of
the call (so `connect()` is not triggered); a query that triggers or
overlaps `connect()` has both flags true until connect's completion
resets them. -/
theorem c1_pending_flags_exclusive (qp sqlValid cacheEnabled cacheHit connectOk : Bool)
    (ack : Int) :
    ∀ st ∈ (queryModel ⟨true, false, qp⟩ sqlValid cacheEnabled cacheHit
        connectOk ack).trace,
      ¬(st.connectionPending = true ∧ st.queryPending = true) := by
  by_cases hack : ack = 0 <;>
    cases qp <;> cases sqlValid <;> cases cacheEnabled <;> cases cacheHit <;>
      simp [queryModel, queryStep2, hack]

/-- C1 witness: the amended exclusion applied to a state of the trace
of a concrete query on an open session. -/
theorem c1_pending_flags_exclusive_witness :
    ¬((⟨true, false, true⟩ : SessionFlags).connectionPending = true
      ∧ (⟨true, false, true⟩ : SessionFlags).queryPending = true) :=
  c1_pending_flags_exclusive false true false false true 0
    ⟨true, false, true⟩ (by decide)

/-- C9 counterexample: a `query()` on a fresh closed session that
succeeds through the wire path (triggering `connect()` internally)
ends with `queryPending = false`, because `connect()`'s completion
callback resets the flag; the claim as stated says it remains true
after every successful wire-path query. -/
theorem c9_counterexample :
    (queryModel ⟨false, false, false⟩ true false false true 0).outcome
      = .wireSuccess
    ∧ (queryModel ⟨false, false, false⟩ true false false true 0).final.queryPending
      = false := by
  decide

/-- C9 (amended): after a `query()` made while the connection is
already open completes successfully through the wire path (cache miss,
zero acknowledgement error code), `queryPending` remains true, so
every subsequent `query()` is rejected with the query-already-pending
error until `closeQuery()` or `close()` resets the flag; when the
query itself triggered `connect()`, connect's completion resets
`queryPending` to false instead. -/
theorem c9_query_pending_persists (p cacheEnabled connectOk : Bool) :
    (queryModel ⟨true, p, false⟩ true cacheEnabled false connectOk 0).outcome
      = .wireSuccess
    ∧ (queryModel ⟨true, p, false⟩ true cacheEnabled false connectOk 0).final
      = ⟨true, p, true⟩
    ∧ (∀ v cE2 cH2 cOk2 ack2,
        (queryModel ⟨true, p, true⟩ v cE2 cH2 cOk2 ack2).outcome
          = .rejectedPending
        ∧ (queryModel ⟨true, p, true⟩ v cE2 cH2 cOk2 ack2).callbackErr
          = some .queryAlreadyPending)
    ∧ (∀ h ack, (closeQueryModel ⟨true, p, true⟩ true h ack).flags.queryPending
        = false)
    ∧ (closeResetFlags ⟨true, p, true⟩).queryPending = false := by
  refine ⟨?_, ?_, ?_, ?_, ?_⟩
  · cases p <;> cases cacheEnabled <;> cases connectOk <;> decide
  · cases p <;> cases cacheEnabled <;> cases connectOk <;> decide
  · intro v cE2 cH2 cOk2 ack2
    exact ⟨by simp [queryModel], by simp [queryModel]⟩
  · intro h ack
    simp [closeQueryModel]
  · simp [closeResetFlags]

/-- C10: when `query()` rejects its input at SQL validation, or
`closeQuery()` rejects its input at handle validation, the validation
error is emitted on the error event but the completion callback is
invoked with the still-null error variable, and nothing is written to
the socket. -/
theorem c10_validation_callback_null (s : SessionFlags)
    (cacheEnabled cacheHit connectOk : Bool) (ack h ack2 : Int)
    (hqp : s.queryPending = false) :
    ((queryModel s false cacheEnabled cacheHit connectOk ack).errorEvents
        = [.validation]
     ∧ (queryModel s false cacheEnabled cacheHit connectOk ack).callbackErr = none
     ∧ (queryModel s false cacheEnabled cacheHit connectOk ack).wire = []
     ∧ (queryModel s false cacheEnabled cacheHit connectOk ack).outcome
        = .rejectedValidation)
    ∧ ((closeQueryModel s false h ack2).errorEvents = [.validation]
     ∧ (closeQueryModel s false h ack2).callbackErr = none
     ∧ (closeQueryModel s false h ack2).wire = []) := by
  refine ⟨⟨?_, ?_, ?_, ?_⟩, ⟨?_, ?_, ?_⟩⟩ <;>
    simp [queryModel, closeQueryModel, hqp]

/-- C10 witness: the validation-rejection paths evaluated on a fresh
session. -/
theorem c10_validation_callback_null_witness :
    ((queryModel ⟨false, false, false⟩ false false false false 0).errorEvents
        = [.validation]
     ∧ (queryModel ⟨false, false, false⟩ false false false false 0).callbackErr
        = none
     ∧ (queryModel ⟨false, false, false⟩ false false false false 0).wire = []
     ∧ (queryModel ⟨false, false, false⟩ false false false false 0).outcome
        = .rejectedValidation)
    ∧ ((closeQueryModel ⟨false, false, false⟩ false 5 0).errorEvents
        = [.validation]
     ∧ (closeQueryModel ⟨false, false, false⟩ false 5 0).callbackErr = none
     ∧ (closeQueryModel ⟨false, false, false⟩ false 5 0).wire = []) :=
  c10_validation_callback_null ⟨false, false, false⟩ false false false 0 5 0 rfl

end NodeCubrid
